import Mathlib

/-!
Verification of the IoTrade backend's subscription-gated real-time data
distribution engine.

The definitions below are a shallow embedding of the TypeScript backend:

* `checkAccess`            — `SuiService.checkAccess` (backend/src/services/sui.service.ts)
* `decryptData`            — `SealService.decryptData` (error classification and
                             message wrapping, sui.service.ts related doc, lines 713-799)
* `isExpiredMessage`       — the expired-session-key test in `broadcastDataUpdate`
                             (backend/src/index.ts, line 395)
* `broadcastDataUpdate`    — the WebSocket fan-out (backend/src/index.ts, lines 343-466)
* `handleSubscribe`        — the WebSocket `subscribe` message handler
                             (backend/src/index.ts, lines 120-287)
* `handleUnsubscribe`      — the WebSocket `unsubscribe` handler (index.ts, lines 288-296)
* `uploadData`             — `WalrusService.uploadData` (unnamed/part_015, lines 33-140)
* `iotEncryptDecision`     — the premium/encrypt decision of the
                             `POST /api/iot/feeds/:feedId/update` handler
                             (backend/src/routes/iot.ts, lines 50-87)

External I/O (ledger reads, blob fetches, key-server exchanges) is made
explicit: each operation takes the outcome of its external reads as data.
-/

namespace IoTrade

/-! ## Strings: substring search (JavaScript `String.prototype.includes`) -/

/-- `isPrefixChars p l` is true when `p` is a prefix of `l`
(character-by-character, case-sensitive, like JavaScript string matching). -/
def isPrefixChars : List Char → List Char → Bool
  | [], _ => true
  | _ :: _, [] => false
  | p :: ps, c :: cs => p == c && isPrefixChars ps cs

/-- `containsChars hay pat` is true when `pat` occurs as a contiguous
substring of `hay`; models JavaScript `hay.includes(pat)` (case-sensitive). -/
def containsChars : List Char → List Char → Bool
  | [], pat => pat.isEmpty
  | hay@(_ :: t), pat => isPrefixChars pat hay || containsChars t pat

/-- JavaScript `s.includes(pat)`: case-sensitive substring containment. -/
def containsSubstr (s pat : String) : Bool :=
  containsChars s.data pat.data

/-! ## SuiService.checkAccess (sui.service.ts, lines 247-274)

The two external reads are passed in as data: `subRead` is the result of
`getSubscription` (which returns `null` both for a missing object and after
its retries are exhausted, never throwing), and `epochRead` is the result of
`client.getLatestSuiSystemState()` (`.error` when the RPC call throws; the
surrounding `try/catch` then returns `false`). -/

/-- Subscription object fields read by `checkAccess`
(sui.service.ts, `getSubscription`, lines 351-361). -/
structure Subscription where
  consumer : String
  feedId : String
  expiryEpoch : Nat
  isActive : Bool
deriving DecidableEq, Repr

/-- `SuiService.checkAccess(subscriptionId, consumer)`: null subscription →
false; consumer mismatch or inactive → false; epoch fetch throws → caught,
false; otherwise `currentEpoch <= subscription.expiryEpoch`. -/
def checkAccess (subRead : Option Subscription) (consumer : String)
    (epochRead : Except Unit Nat) : Bool :=
  match subRead with
  | none => false
  | some s =>
    if s.consumer ≠ consumer || !s.isActive then false
    else
      match epochRead with
      | .error _ => false
      | .ok currentEpoch => decide (currentEpoch ≤ s.expiryEpoch)

/-! ## SealService.decryptData (sui.service.ts, lines 713-799)

The decryption attempt's interactions with the Seal SDK and the key servers
are captured by `SealAttempt`; `decryptData` reproduces the method's control
flow and error wrapping exactly: every failure is re-thrown by the outer
`catch` as `` `Seal decryption failed: ${error.message}` ``. -/

/-- Outcome of `SessionKey.import` (sui.service.ts, lines 733-742):
either it succeeds, or it throws with a message, where
`isExpiredSessionKeyError` records `constructor.name === 'ExpiredSessionKeyError'`. -/
inductive ImportOutcome where
  | ok
  | failed (msg : String) (isExpiredSessionKeyError : Bool)
deriving DecidableEq, Repr

/-- Outcome of `client.fetchKeys` (sui.service.ts, lines 770-783):
success, a `NoAccessError`, or any other throw. -/
inductive FetchOutcome where
  | ok
  | noAccess
  | failedOther
deriving DecidableEq, Repr

/-- Outcome of the final local `client.decrypt` call:
plaintext, or a throw with message `m`. -/
inductive DecryptStep where
  | ok (pt : String)
  | threw (m : String)
deriving DecidableEq, Repr

/-- One decryption attempt's external events, in the order `decryptData`
performs them: session-key import, address comparison, key fetch, and the
final local `client.decrypt` call. -/
structure SealAttempt where
  importOutcome : ImportOutcome
  addrMatches : Bool
  fetchOutcome : FetchOutcome
  decryptStep : DecryptStep
deriving DecidableEq, Repr

/-- Result of `SealService.decryptData`: decrypted plaintext, or the message
of the thrown error. -/
inductive DecResult where
  | ok (plaintext : String)
  | err (msg : String)
deriving DecidableEq, Repr

/-- The outer `catch` of `decryptData` (sui.service.ts, line 797) wraps every
error as `` `Seal decryption failed: ${error.message}` ``. -/
def wrapSeal (m : String) : String :=
  "Seal decryption failed: " ++ m

/-- `SealService.decryptData` (sui.service.ts, lines 713-799), as a function
of the attempt's external events. Control flow:
1. not configured → throw `Seal is not configured`;
2. `SessionKey.import` throws: if the message includes `expired` or the
   error is an `ExpiredSessionKeyError`, re-throw `SESSION_KEY_EXPIRED`,
   else re-throw the original;
3. session-key address mismatch → throw;
4. `fetchKeys` throws → `NoAccessError` and other errors are mapped to
   fixed messages;
5. `client.decrypt` succeeds → plaintext, else its error propagates.
Every thrown error passes through the outer `catch`, which prepends
`Seal decryption failed: `. -/
def decryptData (configured : Bool) (a : SealAttempt) : DecResult :=
  if !configured then .err (wrapSeal "Seal is not configured")
  else
    match a.importOutcome with
    | .failed msg isExp =>
      if containsSubstr msg "expired" || isExp then .err (wrapSeal "SESSION_KEY_EXPIRED")
      else .err (wrapSeal msg)
    | .ok =>
      if !a.addrMatches then .err (wrapSeal "Session key does not match consumer address")
      else
        match a.fetchOutcome with
        | .noAccess =>
          .err (wrapSeal "No access to decryption keys. Please ensure you have an active subscription.")
        | .failedOther => .err (wrapSeal "Unable to fetch decryption keys")
        | .ok =>
          match a.decryptStep with
          | .ok pt => .ok pt
          | .threw m => .err (wrapSeal m)

/-- The expired-session-key classifier of `broadcastDataUpdate`
(index.ts, line 395):
`decryptError.message === 'SESSION_KEY_EXPIRED' || decryptError.message?.includes('expired')`. -/
def isExpiredMessage (msg : String) : Bool :=
  msg == "SESSION_KEY_EXPIRED" || containsSubstr msg "expired"

/-! ## The WebSocket broadcast hub (index.ts, lines 88-466)

`WSClient` connection state, and `broadcastDataUpdate` as a function of the
external-read outcomes of one update cycle. -/

/-- `WSClient` (index.ts, lines 88-97). Session keys are opaque (`Nat`).
`isOpen` models `ws.readyState === WebSocket.OPEN`. -/
structure Client where
  feedId : Option String
  subscriptionId : Option String
  apiKeyId : Option String
  consumerAddress : Option String
  sessionKey : Option Nat
  isOpen : Bool
deriving DecidableEq, Repr

/-- Messages the server sends over a WebSocket, as far as the embedded
handlers produce them. `dataPlain` is `{type:'data', feedId, data, timestamp}`;
`dataEnc` is `{type:'data', feedId, encrypted: true, encryptionType:'seal',
data: <base64 ciphertext>, timestamp}`. -/
inductive WsMsg where
  | subscribed (feedId : String)
  | unsubscribed
  | errorMsg (text : String)
  | dataPlain (payload : String)
  | dataEnc (ciphertext : List Nat)
deriving DecidableEq, Repr

/-- `DataFeed` fields the broadcast path reads (sui.service.ts, lines 295-312). -/
structure FeedInfo where
  isPremium : Bool
  walrusBlobId : Option String
deriving DecidableEq, Repr

/-- Outcome of `walrusService.retrieveData(feed.walrusBlobId, undefined, feedId)`
in `broadcastDataUpdate` (index.ts, line 356): Seal-encrypted raw bytes
(`Uint8Array`), some other (non-`Uint8Array`) value, or a throw. -/
inductive RetrieveResult where
  | bytes (ct : List Nat)
  | nonBytes (other : String)
  | failed
deriving DecidableEq, Repr

/-- External-read outcomes during one `broadcastDataUpdate` cycle.
`oracle` gives, per decryption input (ciphertext, feedId, subscriptionId,
sessionKey, consumerAddress), the events of that attempt; being a function,
identical inputs see identical events. -/
structure World where
  feed : Option FeedInfo
  retrieve : RetrieveResult
  sealConfigured : Bool
  oracle : List Nat → String → String → Nat → String → SealAttempt

/-- Result of one broadcast cycle: the messages sent (paired with the
pre-state of the receiving client), the post-state of every client, the
`clearSessionKey` calls issued against the api-key store, and how many times
`sealService.decryptData` was invoked. -/
structure BroadcastOutcome where
  sends : List (Client × WsMsg)
  clients : List Client
  storeClears : List String
  decryptCalls : Nat
deriving Repr

/-- Per-client delivery on the premium path (index.ts, lines 364-435):
skip clients not bound to this feed or not OPEN; if the client has a session
key, a subscription id, a consumer address and Seal is configured, attempt
decryption — success sends plaintext, an error classified as expired clears
the client's session key and the stored one (when an api-key id exists) and
sends ciphertext, any other error just sends ciphertext; clients without the
full decryption prerequisites get the ciphertext directly. -/
def classifyDelivery (w : World) (fid : String) (ct : List Nat) (c : Client) :
    Option WsMsg × Client × List String × Nat :=
  if c.feedId = some fid ∧ c.isOpen then
    match c.sessionKey, c.subscriptionId, c.consumerAddress with
    | some sk, some sub, some addr =>
      if w.sealConfigured then
        match decryptData true (w.oracle ct fid sub sk addr) with
        | .ok pt => (some (.dataPlain pt), c, [], 1)
        | .err msg =>
          if isExpiredMessage msg then
            (some (.dataEnc ct), { c with sessionKey := none },
              (match c.apiKeyId with | some k => [k] | none => []), 1)
          else (some (.dataEnc ct), c, [], 1)
      else (some (.dataEnc ct), c, [], 0)
    | _, _, _ => (some (.dataEnc ct), c, [], 0)
  else (none, c, [], 0)

/-- The `Promise.all` fan-out over all connected clients on the premium path
(index.ts, lines 363-436). -/
def premiumFanout (w : World) (fid : String) (ct : List Nat) :
    List Client → BroadcastOutcome
  | [] => ⟨[], [], [], 0⟩
  | c :: rest =>
    let r := classifyDelivery w fid ct c
    let o := premiumFanout w fid ct rest
    ⟨(match r.1 with
      | some m => (c, m) :: o.sends
      | none => o.sends),
     r.2.1 :: o.clients, r.2.2.1 ++ o.storeClears, r.2.2.2 + o.decryptCalls⟩

/-- The plaintext fan-out (index.ts, lines 452-465): every client bound to
the feed whose socket is OPEN receives the update's `data` verbatim. -/
def plainFanout (fid : String) (data : String) : List Client → List (Client × WsMsg)
  | [] => []
  | c :: rest =>
    if c.feedId = some fid ∧ c.isOpen then
      (c, .dataPlain data) :: plainFanout fid data rest
    else plainFanout fid data rest

/-- `broadcastDataUpdate(feedId, data, isPremium)` (index.ts, lines 343-466).
For a premium update it looks the feed up, fetches the blob, and — only when
the feed exists, has a `walrusBlobId`, and the fetch yields raw bytes — runs
the per-client decryption fan-out. On a missing feed, a missing blob id, a
fetch throw, or non-byte data, and for non-premium updates, it broadcasts the
plaintext `data` argument to every bound OPEN client. -/
def broadcastDataUpdate (w : World) (fid : String) (data : String)
    (isPremium : Bool) (clients : List Client) : BroadcastOutcome :=
  if isPremium then
    match w.feed with
    | some f =>
      match f.walrusBlobId with
      | some _ =>
        match w.retrieve with
        | .bytes ct => premiumFanout w fid ct clients
        | .nonBytes _ => ⟨plainFanout fid data clients, clients, [], 0⟩
        | .failed => ⟨plainFanout fid data clients, clients, [], 0⟩
      | none => ⟨plainFanout fid data clients, clients, [], 0⟩
    | none => ⟨plainFanout fid data clients, clients, [], 0⟩
  else ⟨plainFanout fid data clients, clients, [], 0⟩

/-! ## The api-key session-key store

`api-key.service.ts` (with `getStoredSessionKey` / `storeSessionKey` /
`clearSessionKey`) is not part of the provided sources; only its callers in
`index.ts` are. Its entries are keyed by api-key id and carry an absolute
expiry (`index.ts` line 218 passes `Date.now() + 30*60*1000`). -/

/-- One stored session-key entry: api-key id, opaque session key, absolute
expiry (milliseconds). -/
structure StoreEntry where
  apiKeyId : String
  sessionKey : Nat
  expiresAt : Nat
deriving DecidableEq, Repr

/-- The session-key store: at most one relevant entry per api-key id
(lookups take the first). -/
abbrev Store := List StoreEntry

/-- Modelled from the spec: `getStoredSessionKey` of the missing
`api-key.service.ts`. Per §4.3, expiry is enforced lazily — a `get` on an
expired entry behaves as if the entry were absent. -/
def storeGet (s : Store) (now : Nat) (k : String) : Option Nat :=
  match s.find? (fun e => e.apiKeyId == k) with
  | some e => if now < e.expiresAt then some e.sessionKey else none
  | none => none

/-- Modelled from the spec: `storeSessionKey` of the missing
`api-key.service.ts` — record `(sessionKey, expiresAt)` under the api-key id,
replacing whatever was under that id. -/
def storePut (s : Store) (k : String) (sk expiresAt : Nat) : Store :=
  ⟨k, sk, expiresAt⟩ :: s.filter (fun e => e.apiKeyId ≠ k)

/-- Modelled from the spec: `clearSessionKey` of the missing
`api-key.service.ts` — drop the entry under the api-key id. -/
def storeClear (s : Store) (k : String) : Store :=
  s.filter (fun e => e.apiKeyId ≠ k)

/-! ## The WebSocket `subscribe` / `unsubscribe` handlers (index.ts, lines 116-296) -/

/-- Fields of an incoming `subscribe` message (index.ts, line 122). `apiKey`
and `sessionKey` are opaque; what matters is their presence and, for the
session key, its identity. -/
structure SubscribeMsg where
  feedId : String
  subscriptionId : Option String
  consumer : Option String
  apiKey : Option Nat
  sessionKey : Option Nat
deriving DecidableEq, Repr

/-- The api-key record returned by `validateApiKey` (fields the handler
reads: `type`, `subscriptionId`, `id`, `consumerAddress`). -/
structure ApiKeyRecord where
  typeIsSubscriber : Bool
  subscriptionId : Option String
  id : String
  consumerAddress : Option String
deriving DecidableEq, Repr

/-- Outcome of `apiKeyService.validateApiKey(apiKey)` (index.ts, line 133):
a database throw, or a `{valid, apiKey}` result. -/
inductive ApiValidation where
  | threw
  | result (valid : Bool) (record : Option ApiKeyRecord)
deriving DecidableEq, Repr

/-- Result of the initial-data block after a successful subscribe
(index.ts, lines 254-287): feed absent → nothing sent; premium feed whose
blob fetch yields `Uint8Array` → encrypted message; premium feed whose fetch
yields something else → plain message carrying it; non-premium feed → plain
message; a fetch throw escapes to the outer catch, which sends an error. -/
inductive SnapshotResult where
  | noFeed
  | premiumBytes (ct : List Nat)
  | premiumNonBytes (d : String)
  | plainData (d : String)
  | fetchThrew (msg : String)
deriving DecidableEq, Repr

/-- Messages the initial-data block produces. -/
def snapshotMsgs : SnapshotResult → List WsMsg
  | .noFeed => []
  | .premiumBytes ct => [.dataEnc ct]
  | .premiumNonBytes d => [.dataPlain d]
  | .plainData d => [.dataPlain d]
  | .fetchThrew msg => [.errorMsg msg]

/-- External-read outcomes of one `subscribe` handling: api-key validation,
the `getSubscription` lookup for the api-key's subscription, the two
`checkAccess` results, the initial-data block's outcome, and the clock. -/
structure SubEnv where
  apiKeyValidation : ApiValidation
  subscriptionLookup : Option Subscription
  accessApi : Bool
  accessLegacy : Bool
  snapshot : SnapshotResult
  now : Nat
deriving Repr

/-- Authorization variables accumulated by the handler
(index.ts, lines 124-127). -/
structure AuthState where
  hasAccess : Bool
  apiKeyId : Option String
  consumerAddress : Option String
  resolvedSubscriptionId : Option String
deriving DecidableEq, Repr

/-- The "try API key authentication first" block (index.ts, lines 129-158).
`.error` is the database-throw path, which sends an error and returns. The
identity variables are set only when the api-key's subscription exists and
matches the requested feed; `hasAccess` is then the `checkAccess` result. -/
def apiPhase (env : SubEnv) (m : SubscribeMsg) : Except Unit AuthState :=
  match m.apiKey with
  | none => .ok ⟨false, none, none, none⟩
  | some _ =>
    match env.apiKeyValidation with
    | .threw => .error ()
    | .result valid record? =>
      match record? with
      | some record =>
        if valid ∧ record.typeIsSubscriber then
          match record.subscriptionId with
          | some sid =>
            match env.subscriptionLookup with
            | some sub =>
              if sub.feedId = m.feedId then
                .ok ⟨env.accessApi, some record.id, record.consumerAddress, some sid⟩
              else .ok ⟨false, none, none, none⟩
            | none => .ok ⟨false, none, none, none⟩
          | none => .ok ⟨false, none, none, none⟩
        else .ok ⟨false, none, none, none⟩
      | none => .ok ⟨false, none, none, none⟩

/-- The "fallback to legacy authentication" block (index.ts, lines 160-165):
taken only when the api-key path granted nothing and the message carried both
`subscriptionId` and `consumer`. It overwrites `consumerAddress` and
`resolvedSubscriptionId` but not `apiKeyId`. -/
def legacyPhase (env : SubEnv) (m : SubscribeMsg) (a : AuthState) : AuthState :=
  if ¬a.hasAccess ∧ m.subscriptionId.isSome ∧ m.consumer.isSome then
    { a with hasAccess := env.accessLegacy,
             consumerAddress := m.consumer,
             resolvedSubscriptionId := m.subscriptionId }
  else a

/-- The whole `subscribe` message handler (index.ts, lines 120-287), acting
on the connection state and the session-key store, producing the messages
sent to this client. On denial the connection state and store are untouched.
On success: the binding fields are assigned; the effective session key is the
provided one or, failing that, the stored one for the api-key id; when an
effective key, a consumer address and a subscription id are all present, the
key is kept on the connection, and a provided key is persisted iff no live
stored entry exists for the api-key id. -/
def handleSubscribe (env : SubEnv) (store : Store) (c : Client)
    (m : SubscribeMsg) : Client × Store × List WsMsg :=
  match apiPhase env m with
  | .error _ =>
    (c, store, [.errorMsg "Database connection error. Please try again later or contact support."])
  | .ok a0 =>
    let a := legacyPhase env m a0
    if ¬a.hasAccess then
      (c, store, [.errorMsg "Access denied. Provide valid API key or subscription credentials."])
    else
      let c1 := { c with feedId := some m.feedId,
                         subscriptionId := a.resolvedSubscriptionId,
                         apiKeyId := a.apiKeyId,
                         consumerAddress := a.consumerAddress }
      let finalKey : Option Nat :=
        match m.sessionKey with
        | some sk => some sk
        | none =>
          match a.apiKeyId with
          | some k => storeGet store env.now k
          | none => none
      let next : Client × Store :=
        if finalKey.isSome ∧ a.consumerAddress.isSome ∧ a.resolvedSubscriptionId.isSome then
          let c2 := { c1 with sessionKey := finalKey }
          match m.sessionKey, a.apiKeyId with
          | some sk, some k =>
            if (storeGet store env.now k).isSome then (c2, store)
            else (c2, storePut store k sk (env.now + 1800000))
          | _, _ => (c2, store)
        else (c1, store)
      (next.1, next.2, [.subscribed m.feedId] ++ snapshotMsgs env.snapshot)

/-- The `unsubscribe` message handler (index.ts, lines 288-296): clear
`feedId`, `subscriptionId` and `apiKeyId` (but not `consumerAddress` or
`sessionKey`) and acknowledge. -/
def handleUnsubscribe (c : Client) : Client × List WsMsg :=
  ({ c with feedId := none, subscriptionId := none, apiKeyId := none }, [.unsubscribed])

/-! ## WalrusService.uploadData (unnamed/part_015, lines 33-140) -/

/-- What was handed to `axios.put` against the Walrus publisher. -/
inductive UploadedPayload where
  | text (s : String)
  | bytes (b : List Nat)
deriving DecidableEq, Repr

/-- Outcome of `sealService.encryptData(dataToUpload, feedId)`
(part_015, line 59): encrypted bytes, or a throw with message `msg`. -/
inductive EncryptOutcome where
  | ok (bytes : List Nat)
  | threw (msg : String)
deriving DecidableEq, Repr

/-- Outcome of the `axios.put` upload (part_015, lines 93-101): a throw, or
a response from which a blob id could (or could not) be parsed. -/
inductive PutOutcome where
  | threw (msg : String)
  | responded (blobId : Option String)
deriving DecidableEq, Repr

/-- External state of one `uploadData` call. -/
structure WalrusEnv where
  sealConfigured : Bool
  encryptOutcome : EncryptOutcome
  putOutcome : PutOutcome
deriving DecidableEq, Repr

/-- The outer `catch` of `uploadData` (part_015, line 138) wraps every error
as `` `Walrus upload failed: ${error.message}` ``. -/
def wrapWalrus (m : String) : String :=
  "Walrus upload failed: " ++ m

/-- The upload half of `uploadData` (part_015, lines 81-133): the payload is
handed to `axios.put`; a put throw or an unparseable response becomes a
thrown error, otherwise the parsed blob id is returned. -/
def finishUpload (env : WalrusEnv) (payload : UploadedPayload) :
    Option UploadedPayload × Except String String :=
  match env.putOutcome with
  | .threw m => (some payload, .error (wrapWalrus m))
  | .responded none => (some payload, .error (wrapWalrus "Failed to get blob ID from Walrus response"))
  | .responded (some bid) => (some payload, .ok bid)

/-- `WalrusService.uploadData(data, encrypt, feedId)` (part_015, lines
33-140), with `plaintext` the serialized form of `data`. The first component
is what reached `axios.put` (`none` when the call threw before uploading);
the second is the call's result. With `encrypt` set: a missing `feedId`,
unconfigured Seal, or an encryption throw each abort before any upload;
otherwise only the encrypted bytes are uploaded. -/
def uploadData (env : WalrusEnv) (plaintext : String) (encrypt : Bool)
    (feedId : Option String) : Option UploadedPayload × Except String String :=
  if encrypt then
    match feedId with
    | none => (none, .error (wrapWalrus "feedId is required for Seal encryption"))
    | some _ =>
      if ¬env.sealConfigured then
        (none, .error (wrapWalrus "Seal encryption is not configured. Please set SUI_PACKAGE_ID and SEAL_KEY_SERVER_OBJECT_IDS in environment variables. Premium feeds cannot be uploaded without encryption."))
      else
        match env.encryptOutcome with
        | .threw m =>
          (none, .error (wrapWalrus ("Seal encryption failed: " ++ m ++ ". Premium feeds MUST be encrypted before upload to Walrus. Upload aborted.")))
        | .ok b => finishUpload env (.bytes b)
  else finishUpload env (.text plaintext)

/-! ## The IoT update handler's encryption decision (routes/iot.ts, lines 50-87) -/

/-- Outcome of the raced `getDataFeed(feedId)` lookup in the
`POST /api/iot/feeds/:feedId/update` handler: the 3-second timeout fired or
the lookup threw, the feed was not found, or it was found with its
`isPremium` flag. -/
inductive FeedLookup where
  | timeoutOrError
  | notFound
  | found (isPremium : Bool)
deriving DecidableEq, Repr

/-- The handler's `(encrypt, feedIsPremium)` decision (iot.ts, lines 50-84):
timeout/error → `encrypt = false` (the code's commented "default to
non-premium" choice); feed not found → `encrypt = false`; feed found →
both follow `feed.isPremium`. -/
def iotEncryptDecision : FeedLookup → Bool × Bool
  | .timeoutOrError => (false, false)
  | .notFound => (false, false)
  | .found p => (p, p)

/-! ## Derived predicates and sample data used by the theorems -/

/-- A connection can be decrypted for in this update: it holds a session key,
a subscription id and a consumer address, Seal is configured, and the
decryption attempt for its identity on this exact ciphertext succeeds. -/
def canDecrypt (w : World) (fid : String) (ct : List Nat) (c : Client) : Prop :=
  ∃ sk sub addr pt, c.sessionKey = some sk ∧ c.subscriptionId = some sub ∧
    c.consumerAddress = some addr ∧ w.sealConfigured = true ∧
    decryptData true (w.oracle ct fid sub sk addr) = .ok pt

/-- The premium fan-out invokes `sealService.decryptData` for this client:
it is bound to the feed, its socket is OPEN, it carries a session key, a
subscription id and a consumer address, and Seal is configured. -/
def attemptsDecrypt (w : World) (fid : String) (c : Client) : Bool :=
  (c.feedId == some fid) && c.isOpen && c.sessionKey.isSome &&
    c.subscriptionId.isSome && c.consumerAddress.isSome && w.sealConfigured

/-- A decryption-attempt trace in which every step succeeds with
plaintext `"PT"`. -/
def okOracle : List Nat → String → String → Nat → String → SealAttempt :=
  fun _ _ _ _ _ => ⟨.ok, true, .ok, .ok "PT"⟩

/-- A decryption-attempt trace in which `SessionKey.import` throws an
`ExpiredSessionKeyError` whose message also contains `expired`. -/
def expiredOracle : List Nat → String → String → Nat → String → SealAttempt :=
  fun _ _ _ _ _ => ⟨.failed "session key has expired" true, true, .ok, .threw "unreached"⟩

/-- A premium update cycle whose external reads all succeed: the feed exists
with a blob id, the blob fetch returns raw Seal bytes, Seal is configured. -/
def premiumWorld : World :=
  ⟨some ⟨true, some "blob-1"⟩, .bytes [1, 2, 3], true, okOracle⟩

/-- A premium update cycle in which the on-chain feed lookup failed
(`getDataFeed` returned `null`). -/
def failedLookupWorld : World :=
  ⟨none, .failed, true, okOracle⟩

/-- A premium update cycle whose blob fetch succeeds but whose session key
turns out to be expired at decryption time. -/
def expiredWorld : World :=
  ⟨some ⟨true, some "blob-1"⟩, .bytes [9], true, expiredOracle⟩

/-- A bound, OPEN connection with a full credential set
(session key 7, stored under api-key id `key-1`). -/
def keyedClient : Client :=
  ⟨some "feed-1", some "sub-1", some "key-1", some "addr-1", some 7, true⟩

/-- A bound, OPEN connection that never supplied a session key. -/
def bareClient : Client :=
  ⟨some "feed-1", none, none, none, none, true⟩

/-- A subscribe environment in which the api-key path authorizes the
request for `feed-1` and everything external succeeds. -/
def grantedEnv : SubEnv :=
  { apiKeyValidation := .result true (some ⟨true, some "sub-1", "key-1", some "addr-1"⟩)
    subscriptionLookup := some ⟨"addr-1", "feed-1", 10, true⟩
    accessApi := true
    accessLegacy := false
    snapshot := .noFeed
    now := 1000 }

/-- A subscribe message presenting an api key and a fresh session key. -/
def keyedMsg : SubscribeMsg :=
  ⟨"feed-1", none, none, some 99, some 7⟩

/-- A subscribe environment that denies every path. -/
def deniedEnv : SubEnv :=
  { apiKeyValidation := .result false none
    subscriptionLookup := none
    accessApi := false
    accessLegacy := false
    snapshot := .noFeed
    now := 1000 }

/-! ## Helper lemmas on the premium fan-out -/

/-- The premium fan-out sends a plain-data message to a client exactly when
the client is bound to the feed, OPEN, fully credentialed, and its decryption
attempt on the update's ciphertext returned that plaintext. -/
theorem classifyDelivery_plain_iff (w : World) (fid : String) (ct : List Nat)
    (c : Client) (pt : String) :
    (classifyDelivery w fid ct c).1 = some (.dataPlain pt) ↔
      c.feedId = some fid ∧ c.isOpen = true ∧ ∃ sk sub addr,
        c.sessionKey = some sk ∧ c.subscriptionId = some sub ∧
        c.consumerAddress = some addr ∧ w.sealConfigured = true ∧
        decryptData true (w.oracle ct fid sub sk addr) = .ok pt := by
  rcases c with ⟨cf, csub, cak, cca, csk, cop⟩
  simp only [classifyDelivery]
  by_cases hb : cf = some fid ∧ cop = true
  · rw [if_pos hb]
    obtain ⟨hf, ho⟩ := hb
    subst hf
    cases csk with
    | none => simp [ho]
    | some sk =>
      cases csub with
      | none => simp [ho]
      | some sub =>
        cases cca with
        | none => simp [ho]
        | some addr =>
          by_cases hc : w.sealConfigured = true
          · rw [hc]
            simp only [if_pos rfl]
            cases hd : decryptData true (w.oracle ct fid sub sk addr) with
            | ok pt2 => simp [ho, hd]
            | err m =>
              by_cases he : isExpiredMessage m = true
              · simp [he, ho, hd]
              · simp [he, ho, hd]
          · have hc2 : w.sealConfigured = false := by
              cases h : w.sealConfigured
              · rfl
              · exact absurd h hc
            rw [hc2]
            simp [ho, hc2]
  · rw [if_neg hb]
    simp only [not_and] at hb
    constructor
    · intro h; cases h
    · rintro ⟨hf, ho, -⟩
      exact absurd ho (hb hf)

/-- A bound, OPEN client that cannot be decrypted for is classified to the
ciphertext message (with the `encrypted: true` marker). -/
theorem classifyDelivery_enc_of_not_canDecrypt (w : World) (fid : String)
    (ct : List Nat) (c : Client) (hf : c.feedId = some fid)
    (ho : c.isOpen = true) (hnd : ¬ canDecrypt w fid ct c) :
    (classifyDelivery w fid ct c).1 = some (.dataEnc ct) := by
  rcases c with ⟨cf, csub, cak, cca, csk, cop⟩
  simp only [Client.feedId] at hf
  simp only [Client.isOpen] at ho
  simp only [classifyDelivery]
  rw [if_pos (show cf = some fid ∧ cop = true from ⟨hf, ho⟩)]
  subst hf
  cases csk with
  | none => rfl
  | some sk =>
    cases csub with
    | none => rfl
    | some sub =>
      cases cca with
      | none => rfl
      | some addr =>
        by_cases hc : w.sealConfigured = true
        · rw [hc]
          simp only [if_pos rfl]
          cases hd : decryptData true (w.oracle ct fid sub sk addr) with
          | ok pt =>
            exact absurd ⟨sk, sub, addr, pt, rfl, rfl, rfl, hc, hd⟩ hnd
          | err m =>
            by_cases he : isExpiredMessage m = true
            · simp [he]
            · simp [he]
        · have hc2 : w.sealConfigured = false := by
            cases h : w.sealConfigured
            · rfl
            · exact absurd h hc
          rw [hc2]
          simp

/-- Clients not bound to the feed or whose socket is not OPEN get no message
from the premium fan-out. -/
theorem classifyDelivery_none (w : World) (fid : String) (ct : List Nat)
    (c : Client) (h : ¬ (c.feedId = some fid ∧ c.isOpen = true)) :
    (classifyDelivery w fid ct c).1 = none := by
  simp only [classifyDelivery]
  rw [if_neg h]

/-- The decrypt-invocation count of one client's classification. -/
theorem classifyDelivery_calls (w : World) (fid : String) (ct : List Nat)
    (c : Client) :
    (classifyDelivery w fid ct c).2.2.2 =
      if attemptsDecrypt w fid c then 1 else 0 := by
  rcases c with ⟨cf, csub, cak, cca, csk, cop⟩
  simp only [classifyDelivery, attemptsDecrypt]
  by_cases hb : cf = some fid ∧ cop = true
  · obtain ⟨hf, ho⟩ := hb
    subst hf
    rw [if_pos ⟨rfl, ho⟩]
    cases csk with
    | none => simp [ho]
    | some sk =>
      cases csub with
      | none => simp [ho]
      | some sub =>
        cases cca with
        | none => simp [ho]
        | some addr =>
          by_cases hc : w.sealConfigured = true
          · simp only [hc]
            cases hd : decryptData true (w.oracle ct fid sub sk addr) with
            | ok pt => simp [ho, hc, hd]
            | err m =>
              cases he : isExpiredMessage m <;> simp [he, ho, hc, hd]
          · have hc2 : w.sealConfigured = false := by
              cases h : w.sealConfigured
              · rfl
              · exact absurd h hc
            simp [ho, hc2]
  · rw [if_neg hb]
    have : ¬ (cf = some fid ∧ cop = true) := hb
    rcases Decidable.not_and_iff_or_not.mp this with hf | ho
    · simp [beq_eq_false_iff_ne.mpr hf]
    · have : cop = false := by
        cases h : cop
        · rfl
        · exact absurd h ho
      simp [this]

/-- Membership in the premium fan-out's send list, characterized by the
per-client classification. -/
theorem mem_premiumFanout_sends (w : World) (fid : String) (ct : List Nat)
    (cs : List Client) (c : Client) (msg : WsMsg) :
    (c, msg) ∈ (premiumFanout w fid ct cs).sends ↔
      c ∈ cs ∧ (classifyDelivery w fid ct c).1 = some msg := by
  induction cs with
  | nil => simp [premiumFanout]
  | cons c0 rest ih =>
    simp only [premiumFanout]
    cases h : (classifyDelivery w fid ct c0).1 with
    | some m =>
      simp only [h, List.mem_cons, Prod.mk.injEq]
      constructor
      · rintro (⟨rfl, rfl⟩ | hm)
        · exact ⟨Or.inl rfl, h⟩
        · obtain ⟨hc, hcl⟩ := ih.mp hm
          exact ⟨Or.inr hc, hcl⟩
      · rintro ⟨(rfl | hc), hcl⟩
        · rw [h] at hcl
          cases hcl
          exact Or.inl ⟨rfl, rfl⟩
        · exact Or.inr (ih.mpr ⟨hc, hcl⟩)
    | none =>
      simp only [h, List.mem_cons]
      constructor
      · intro hm
        obtain ⟨hc, hcl⟩ := ih.mp hm
        exact ⟨Or.inr hc, hcl⟩
      · rintro ⟨(rfl | hc), hcl⟩
        · rw [h] at hcl
          cases hcl
        · exact ih.mpr ⟨hc, hcl⟩

/-- The total number of decryption invocations in one premium fan-out is the
number of clients satisfying `attemptsDecrypt`. -/
theorem premiumFanout_decryptCalls (w : World) (fid : String) (ct : List Nat)
    (cs : List Client) :
    (premiumFanout w fid ct cs).decryptCalls =
      (cs.filter (attemptsDecrypt w fid)).length := by
  induction cs with
  | nil => simp [premiumFanout]
  | cons c0 rest ih =>
    simp only [premiumFanout, List.filter]
    rw [classifyDelivery_calls]
    cases h : attemptsDecrypt w fid c0 with
    | true => simp [h, ih, Nat.add_comm]
    | false => simp [h, ih]

/-- With the feed present, a blob id on it, and raw bytes fetched, the
premium broadcast is exactly the per-client fan-out. -/
theorem broadcastDataUpdate_bytes (w : World) (fid : String) (data : String)
    (clients : List Client) (f : FeedInfo) (b : String) (ct : List Nat)
    (hf : w.feed = some f) (hb : f.walrusBlobId = some b)
    (hr : w.retrieve = .bytes ct) :
    broadcastDataUpdate w fid data true clients = premiumFanout w fid ct clients := by
  simp [broadcastDataUpdate, hf, hb, hr]

/-- A freshly written store entry is live for any `now` before its expiry. -/
theorem storeGet_storePut_same (s : Store) (k : String) (sk e now : Nat) :
    storeGet (storePut s k sk e) now k = if now < e then some sk else none := by
  simp [storeGet, storePut, List.find?]

end IoTrade

namespace IoTrade

/-! ## Claim theorems -/

/-- C3: `checkAccess(subscriptionId, consumer)` returns true iff the
subscription exists, its consumer equals the requester, it is active, and
the successfully fetched current epoch is at most its expiry epoch; a failed
epoch read or a missing subscription always yields false (fail closed). -/
theorem checkAccess_grants_iff_valid_and_fails_closed
    (subRead : Option Subscription) (consumer : String)
    (epochRead : Except Unit Nat) :
    (checkAccess subRead consumer epochRead = true ↔
      ∃ s currentEpoch, subRead = some s ∧ s.consumer = consumer ∧
        s.isActive = true ∧ epochRead = Except.ok currentEpoch ∧
        currentEpoch ≤ s.expiryEpoch) ∧
    (∀ u, epochRead = Except.error u →
      checkAccess subRead consumer epochRead = false) ∧
    (subRead = none → checkAccess subRead consumer epochRead = false) := by
  refine ⟨?_, ?_, ?_⟩
  · cases subRead with
    | none => simp [checkAccess]
    | some s =>
      cases epochRead with
      | error u => simp [checkAccess]
      | ok e =>
        simp only [checkAccess]
        by_cases hcond : (decide (s.consumer ≠ consumer) || !s.isActive) = true
        · rw [if_pos hcond]
          simp only [Bool.false_eq_true, false_iff]
          rintro ⟨s2, e2, hs, hcons, hact, he, hle⟩
          obtain rfl : s2 = s := by
            injection hs with h
            exact h.symm
          rw [Bool.or_eq_true] at hcond
          rcases hcond with hne | hia
          · exact (of_decide_eq_true hne) hcons
          · rw [hact] at hia
            cases hia
        · rw [if_neg hcond]
          simp only [decide_eq_true_eq]
          constructor
          · intro hle
            refine ⟨s, e, rfl, ?_, ?_, rfl, hle⟩
            · by_contra hne
              exact hcond (by simp [hne])
            · by_contra hact
              have hf : s.isActive = false := by
                cases h : s.isActive
                · rfl
                · exact absurd h hact
              exact hcond (by simp [hf])
          · rintro ⟨s2, e2, hs, hcons, hact, he, hle⟩
            obtain rfl : s2 = s := by
              injection hs with h
              exact h.symm
            obtain rfl : e2 = e := by
              injection he with h
              exact h.symm
            exact hle
  · intro u hu
    subst hu
    cases subRead with
    | none => rfl
    | some s => simp [checkAccess]
  · intro h
    subst h
    rfl

/-- C3 witness: a matching, active, unexpired subscription grants access,
and the same subscription with a failed epoch read is denied. -/
theorem checkAccess_grants_iff_valid_and_fails_closed_witness :
    checkAccess (some ⟨"addr-1", "feed-1", 10, true⟩) "addr-1" (Except.ok 5) = true ∧
    checkAccess (some ⟨"addr-1", "feed-1", 10, true⟩) "addr-1" (Except.error ()) = false :=
  ⟨(checkAccess_grants_iff_valid_and_fails_closed
      (some ⟨"addr-1", "feed-1", 10, true⟩) "addr-1" (Except.ok 5)).1.mpr
      ⟨⟨"addr-1", "feed-1", 10, true⟩, 5, rfl, rfl, rfl, rfl, by decide⟩,
   (checkAccess_grants_iff_valid_and_fails_closed
      (some ⟨"addr-1", "feed-1", 10, true⟩) "addr-1" (Except.error ())).2.1 () rfl⟩

/-- C1 counterexample: on a gated (premium) update whose feed lookup failed,
`broadcastDataUpdate` falls back to broadcasting the plaintext update to a
bound connection that holds no session key — no decryption was attempted at
all, yet the connection receives plaintext. -/
theorem gated_fallback_sends_plaintext_without_decryption :
    (broadcastDataUpdate failedLookupWorld "feed-1" "secret-reading" true
        [bareClient]).sends = [(bareClient, WsMsg.dataPlain "secret-reading")] ∧
    (broadcastDataUpdate failedLookupWorld "feed-1" "secret-reading" true
        [bareClient]).decryptCalls = 0 ∧
    bareClient.sessionKey = none := by
  refine ⟨rfl, rfl, rfl⟩

/-- C1 (amended): on a gated update for which the feed lookup succeeded with
a blob id and the blob fetch returned raw encrypted bytes, a bound connection
receives plaintext only if the decryption attempt for its identity on that
exact ciphertext succeeded with that plaintext. -/
theorem gated_plaintext_requires_successful_decrypt
    (w : World) (fid : String) (data : String) (clients : List Client)
    (f : FeedInfo) (b : String) (ct : List Nat)
    (hf : w.feed = some f) (hb : f.walrusBlobId = some b)
    (hr : w.retrieve = .bytes ct) (c : Client) (pt : String)
    (hmem : (c, WsMsg.dataPlain pt) ∈
      (broadcastDataUpdate w fid data true clients).sends) :
    ∃ sk sub addr, c.sessionKey = some sk ∧ c.subscriptionId = some sub ∧
      c.consumerAddress = some addr ∧ w.sealConfigured = true ∧
      decryptData true (w.oracle ct fid sub sk addr) = .ok pt := by
  rw [broadcastDataUpdate_bytes w fid data clients f b ct hf hb hr] at hmem
  obtain ⟨-, hcl⟩ := (mem_premiumFanout_sends w fid ct clients c _).mp hmem
  obtain ⟨-, -, out⟩ := (classifyDelivery_plain_iff w fid ct c pt).mp hcl
  exact out

/-- C1 (amended) witness: in a fully successful premium cycle, the keyed
client's plaintext delivery is certified by its successful decryption. -/
theorem gated_plaintext_requires_successful_decrypt_witness :
    (keyedClient, WsMsg.dataPlain "PT") ∈
      (broadcastDataUpdate premiumWorld "feed-1" "d" true [keyedClient]).sends ∧
    ∃ sk sub addr, keyedClient.sessionKey = some sk ∧
      keyedClient.subscriptionId = some sub ∧
      keyedClient.consumerAddress = some addr ∧
      premiumWorld.sealConfigured = true ∧
      decryptData true (premiumWorld.oracle [1, 2, 3] "feed-1" sub sk addr) = .ok "PT" :=
  ⟨by decide,
   gated_plaintext_requires_successful_decrypt premiumWorld "feed-1" "d"
     [keyedClient] ⟨true, some "blob-1"⟩ "blob-1" [1, 2, 3] rfl rfl rfl
     keyedClient "PT" (by decide)⟩

/-- C6: on a gated update whose ciphertext was successfully retrieved, every
connection that is bound to the feed and OPEN but cannot be decrypted for
still receives the update as ciphertext with the `encrypted: true` marker —
it is not dropped from the fan-out. -/
theorem gated_update_delivers_ciphertext_to_undecryptable
    (w : World) (fid : String) (data : String) (clients : List Client)
    (f : FeedInfo) (b : String) (ct : List Nat)
    (hf : w.feed = some f) (hb : f.walrusBlobId = some b)
    (hr : w.retrieve = .bytes ct)
    (c : Client) (hc : c ∈ clients) (hbound : c.feedId = some fid)
    (hopen : c.isOpen = true) (hnd : ¬ canDecrypt w fid ct c) :
    (c, WsMsg.dataEnc ct) ∈ (broadcastDataUpdate w fid data true clients).sends := by
  rw [broadcastDataUpdate_bytes w fid data clients f b ct hf hb hr]
  exact (mem_premiumFanout_sends w fid ct clients c _).mpr
    ⟨hc, classifyDelivery_enc_of_not_canDecrypt w fid ct c hbound hopen hnd⟩

/-- C6 witness: a credential-less bound client receives the ciphertext
message in a successful premium cycle. -/
theorem gated_update_delivers_ciphertext_to_undecryptable_witness :
    ¬ canDecrypt premiumWorld "feed-1" [1, 2, 3] bareClient ∧
    (bareClient, WsMsg.dataEnc [1, 2, 3]) ∈
      (broadcastDataUpdate premiumWorld "feed-1" "d" true [bareClient]).sends := by
  have hnd : ¬ canDecrypt premiumWorld "feed-1" [1, 2, 3] bareClient := by
    rintro ⟨sk, sub, addr, pt, hsk, -⟩
    simp [bareClient] at hsk
  exact ⟨hnd,
    gated_update_delivers_ciphertext_to_undecryptable premiumWorld "feed-1" "d"
      [bareClient] ⟨true, some "blob-1"⟩ "blob-1" [1, 2, 3] rfl rfl rfl
      bareClient (by simp) rfl rfl hnd⟩

/-- C4 counterexample: two bound connections with identical client identity
(same session key, subscription id and consumer address) on one gated update
cause two invocations of the Decryption Pipeline, not one — there is no
per-identity memoization. -/
theorem same_identity_connections_decrypt_twice :
    (broadcastDataUpdate premiumWorld "feed-1" "d" true
        [keyedClient, keyedClient]).decryptCalls = 2 ∧
    ¬ ((broadcastDataUpdate premiumWorld "feed-1" "d" true
        [keyedClient, keyedClient]).decryptCalls ≤ 1) := by
  refine ⟨rfl, by decide⟩

/-- C4 (amended): on a gated update with retrieved ciphertext, the
Decryption Pipeline runs exactly once per bound, OPEN, fully credentialed
connection (not once per distinct identity); since the per-attempt outcome
is a function of the identity and that exact ciphertext, two connections
with the same identity nevertheless receive identical plaintext. -/
theorem premium_decrypt_once_per_connection_same_identity_same_plaintext
    (w : World) (fid : String) (data : String) (clients : List Client)
    (f : FeedInfo) (b : String) (ct : List Nat)
    (hf : w.feed = some f) (hb : f.walrusBlobId = some b)
    (hr : w.retrieve = .bytes ct) :
    (broadcastDataUpdate w fid data true clients).decryptCalls =
      (clients.filter (attemptsDecrypt w fid)).length ∧
    (∀ c1 c2 pt1 pt2,
      (c1, WsMsg.dataPlain pt1) ∈ (broadcastDataUpdate w fid data true clients).sends →
      (c2, WsMsg.dataPlain pt2) ∈ (broadcastDataUpdate w fid data true clients).sends →
      c1.sessionKey = c2.sessionKey → c1.subscriptionId = c2.subscriptionId →
      c1.consumerAddress = c2.consumerAddress → pt1 = pt2) := by
  rw [broadcastDataUpdate_bytes w fid data clients f b ct hf hb hr]
  refine ⟨premiumFanout_decryptCalls w fid ct clients, ?_⟩
  intro c1 c2 pt1 pt2 h1 h2 hsk hsub haddr
  obtain ⟨-, hcl1⟩ := (mem_premiumFanout_sends w fid ct clients c1 _).mp h1
  obtain ⟨-, hcl2⟩ := (mem_premiumFanout_sends w fid ct clients c2 _).mp h2
  obtain ⟨-, -, sk1, sub1, addr1, hk1, hs1, ha1, -, hd1⟩ :=
    (classifyDelivery_plain_iff w fid ct c1 pt1).mp hcl1
  obtain ⟨-, -, sk2, sub2, addr2, hk2, hs2, ha2, -, hd2⟩ :=
    (classifyDelivery_plain_iff w fid ct c2 pt2).mp hcl2
  rw [hk1, hk2] at hsk
  rw [hs1, hs2] at hsub
  rw [ha1, ha2] at haddr
  injection hsk with hsk
  injection hsub with hsub
  injection haddr with haddr
  subst hsk
  subst hsub
  subst haddr
  rw [hd1] at hd2
  exact DecResult.ok.inj hd2

/-- C4 (amended) witness: two identical keyed clients cause two decryption
calls (one per connection) and both receive the same plaintext. -/
theorem premium_decrypt_once_per_connection_witness :
    (broadcastDataUpdate premiumWorld "feed-1" "d" true
        [keyedClient, keyedClient]).decryptCalls =
      ([keyedClient, keyedClient].filter (attemptsDecrypt premiumWorld "feed-1")).length ∧
    "PT" = "PT" :=
  ⟨(premium_decrypt_once_per_connection_same_identity_same_plaintext premiumWorld
      "feed-1" "d" [keyedClient, keyedClient] ⟨true, some "blob-1"⟩ "blob-1"
      [1, 2, 3] rfl rfl rfl).1,
   (premium_decrypt_once_per_connection_same_identity_same_plaintext premiumWorld
      "feed-1" "d" [keyedClient, keyedClient] ⟨true, some "blob-1"⟩ "blob-1"
      [1, 2, 3] rfl rfl rfl).2 keyedClient keyedClient "PT" "PT"
      (by decide) (by decide) rfl rfl rfl⟩

/-- C5: at the canonical expired-credential input — `SessionKey.import`
throws an `ExpiredSessionKeyError` — the pipeline's error is wrapped as
`Seal decryption failed: SESSION_KEY_EXPIRED`, which matches neither arm of
the hub's expired test (`message === 'SESSION_KEY_EXPIRED'` fails because of
the wrap, `includes('expired')` fails because the remaining text is
upper-case), so the session key is retained on the connection and no
`clearSessionKey` call is issued: the purge the claim describes never
happens. -/
theorem expired_session_key_not_purged :
    decryptData true (expiredOracle [9] "feed-1" "sub-1" 7 "addr-1")
        = .err "Seal decryption failed: SESSION_KEY_EXPIRED" ∧
    isExpiredMessage "Seal decryption failed: SESSION_KEY_EXPIRED" = false ∧
    (broadcastDataUpdate expiredWorld "feed-1" "d" true [keyedClient]).sends
        = [(keyedClient, WsMsg.dataEnc [9])] ∧
    (broadcastDataUpdate expiredWorld "feed-1" "d" true [keyedClient]).clients
        = [keyedClient] ∧
    (broadcastDataUpdate expiredWorld "feed-1" "d" true [keyedClient]).storeClears
        = [] ∧
    keyedClient.sessionKey = some 7 := by
  refine ⟨by decide, by decide, by decide, by decide, by decide, rfl⟩

/-- C2: when the raced feed lookup in the IoT update handler times out or
throws, the handler chooses `encrypt = false` (its commented
"default to non-premium" branch) and the subsequent `uploadData` call hands
the plaintext reading to the public blob store — for a feed that is in fact
premium, the reading is stored unencrypted: a default-allow outcome. -/
theorem iot_lookup_failure_uploads_plaintext :
    iotEncryptDecision .timeoutOrError = (false, false) ∧
    (uploadData ⟨true, .ok [1], .responded (some "bid")⟩ "premium-reading"
        (iotEncryptDecision .timeoutOrError).1 (some "feed-1")).1
      = some (.text "premium-reading") ∧
    (uploadData ⟨true, .ok [1], .responded (some "bid")⟩ "premium-reading"
        (iotEncryptDecision .timeoutOrError).1 (some "feed-1")).2
      = Except.ok "bid" :=
  ⟨rfl, rfl, rfl⟩

/-- C10: with `encrypt = true`, a missing feed id, unconfigured Seal, or a
throwing encryption step each make `uploadData` throw before anything is
uploaded; and whatever does get uploaded is exactly the encryption step's
output bytes — never the plaintext. -/
theorem uploadData_encrypt_true_fail_closed
    (env : WalrusEnv) (plaintext : String) (feedId : Option String) :
    ((feedId = none ∨ env.sealConfigured = false ∨
        (∃ m, env.encryptOutcome = .threw m)) →
      (uploadData env plaintext true feedId).1 = none ∧
      ∃ msg, (uploadData env plaintext true feedId).2 = Except.error msg) ∧
    (∀ p, (uploadData env plaintext true feedId).1 = some p →
      ∃ b, p = .bytes b ∧ env.encryptOutcome = .ok b) := by
  rcases env with ⟨cfg, enc, put⟩
  cases feedId with
  | none =>
    refine ⟨fun _ => ⟨rfl, _, rfl⟩, ?_⟩
    intro p hp
    exact Option.noConfusion hp
  | some fid =>
    cases cfg with
    | false =>
      refine ⟨fun _ => ⟨rfl, _, rfl⟩, ?_⟩
      intro p hp
      exact Option.noConfusion hp
    | true =>
      cases enc with
      | threw m =>
        refine ⟨fun _ => ⟨rfl, _, rfl⟩, ?_⟩
        intro p hp
        exact Option.noConfusion hp
      | ok b =>
        constructor
        · rintro (h | h | ⟨m, hm⟩)
          · exact Option.noConfusion h
          · exact Bool.noConfusion h
          · exact EncryptOutcome.noConfusion hm
        · intro p hp
          cases put with
          | threw m =>
            injection hp with h
            exact ⟨b, h.symm, rfl⟩
          | responded bid =>
            cases bid with
            | none =>
              injection hp with h
              exact ⟨b, h.symm, rfl⟩
            | some s =>
              injection hp with h
              exact ⟨b, h.symm, rfl⟩

/-- C10 witness: unconfigured Seal with encryption requested throws and
uploads nothing; a successful encrypted upload carries the encrypted bytes. -/
theorem uploadData_encrypt_true_fail_closed_witness :
    ((uploadData ⟨false, .ok [1], .responded (some "bid")⟩ "pt" true (some "f")).1 = none ∧
      ∃ msg, (uploadData ⟨false, .ok [1], .responded (some "bid")⟩ "pt" true
        (some "f")).2 = Except.error msg) ∧
    (∃ b, UploadedPayload.bytes [5, 6] = UploadedPayload.bytes b ∧
      EncryptOutcome.ok [5, 6] = EncryptOutcome.ok b) :=
  ⟨(uploadData_encrypt_true_fail_closed ⟨false, .ok [1], .responded (some "bid")⟩
      "pt" (some "f")).1 (Or.inr (Or.inl rfl)),
   (uploadData_encrypt_true_fail_closed ⟨true, .ok [5, 6], .responded (some "bid")⟩
      "pt" (some "f")).2 (.bytes [5, 6]) rfl⟩

/-- C8: a `subscribe` request that fails authorization — whether through a
database error during api-key validation or through plain access denial —
leaves the connection state and the session-key store exactly as they were
and sends the client an explicit error message. -/
theorem failed_bind_leaves_connection_unchanged
    (env : SubEnv) (store : Store) (c : Client) (m : SubscribeMsg) :
    (apiPhase env m = .error () →
      handleSubscribe env store c m = (c, store,
        [.errorMsg "Database connection error. Please try again later or contact support."])) ∧
    (∀ a0, apiPhase env m = .ok a0 → (legacyPhase env m a0).hasAccess = false →
      handleSubscribe env store c m = (c, store,
        [.errorMsg "Access denied. Provide valid API key or subscription credentials."])) := by
  constructor
  · intro h
    simp [handleSubscribe, h]
  · intro a0 h hacc
    simp only [handleSubscribe, h]
    rw [if_pos (by simp [hacc])]

/-- C8 witness: a credential-less subscribe against a denying environment is
rejected with the explicit denial and no state change. -/
theorem failed_bind_leaves_connection_unchanged_witness :
    apiPhase deniedEnv ⟨"feed-1", none, none, none, none⟩ = .ok ⟨false, none, none, none⟩ ∧
    (legacyPhase deniedEnv ⟨"feed-1", none, none, none, none⟩
        ⟨false, none, none, none⟩).hasAccess = false ∧
    handleSubscribe deniedEnv [] bareClient ⟨"feed-1", none, none, none, none⟩
      = (bareClient, [],
        [.errorMsg "Access denied. Provide valid API key or subscription credentials."]) :=
  ⟨rfl, rfl,
   (failed_bind_leaves_connection_unchanged deniedEnv [] bareClient
      ⟨"feed-1", none, none, none, none⟩).2 ⟨false, none, none, none⟩ rfl rfl⟩

/-- C7: on an authorized subscribe that supplies a session key under an
api-key identity, the handler persists the key iff no live stored entry
exists for that identity: a live entry makes the write a no-op (the store is
returned untouched, so the previously stored credential remains), and only
an absent (or lazily expired) entry is written. -/
theorem credential_store_first_offered_wins
    (env : SubEnv) (store : Store) (c : Client) (m : SubscribeMsg)
    (a0 : AuthState) (hA : apiPhase env m = .ok a0)
    (ha : (legacyPhase env m a0).hasAccess = true)
    (k : String) (hk : (legacyPhase env m a0).apiKeyId = some k)
    (sk : Nat) (hsk : m.sessionKey = some sk)
    (hca : (legacyPhase env m a0).consumerAddress.isSome = true)
    (hrs : (legacyPhase env m a0).resolvedSubscriptionId.isSome = true) :
    ((storeGet store env.now k).isSome = true →
      (handleSubscribe env store c m).2.1 = store) ∧
    (storeGet store env.now k = none →
      (handleSubscribe env store c m).2.1 = storePut store k sk (env.now + 1800000) ∧
      storeGet (handleSubscribe env store c m).2.1 env.now k = some sk) := by
  have hred : (handleSubscribe env store c m).2.1 =
      (if (storeGet store env.now k).isSome then store
       else storePut store k sk (env.now + 1800000)) := by
    simp only [handleSubscribe, hA]
    rw [if_neg (by simp [ha])]
    simp only [hsk, hk]
    rw [if_pos ⟨rfl, hca, hrs⟩]
    split
    · rfl
    · rfl
  constructor
  · intro hlive
    rw [hred, if_pos hlive]
  · intro habs
    rw [hred, if_neg (by simp [habs])]
    refine ⟨rfl, ?_⟩
    rw [storeGet_storePut_same]
    rw [if_pos (by omega)]

/-- C7 witness: against an empty store, the authorized keyed subscribe
persists the supplied session key under the api-key id. -/
theorem credential_store_first_offered_wins_witness :
    storeGet ([] : Store) 1000 "key-1" = none ∧
    (handleSubscribe grantedEnv [] bareClient keyedMsg).2.1
      = storePut [] "key-1" 7 (1000 + 1800000) ∧
    storeGet (handleSubscribe grantedEnv [] bareClient keyedMsg).2.1 1000 "key-1"
      = some 7 :=
  ⟨rfl,
   ((credential_store_first_offered_wins grantedEnv [] bareClient keyedMsg
      ⟨true, some "key-1", some "addr-1", some "sub-1"⟩ rfl rfl "key-1" rfl 7 rfl
      rfl rfl).2 rfl).1,
   ((credential_store_first_offered_wins grantedEnv [] bareClient keyedMsg
      ⟨true, some "key-1", some "addr-1", some "sub-1"⟩ rfl rfl "key-1" rfl 7 rfl
      rfl rfl).2 rfl).2⟩

/-- C9: `unsubscribe` is idempotent (a second unbind produces the same
unbound state and the same plain acknowledgment, no error), and an
authorized re-subscribe to the feed a connection is already bound to
succeeds — the connection ends with exactly the one binding to that feed and
no error message is sent (when the initial-data fetch does not throw). -/
theorem unbind_idempotent_rebind_stable
    (c : Client) (env : SubEnv) (store : Store) (m : SubscribeMsg)
    (a0 : AuthState) (hA : apiPhase env m = .ok a0)
    (ha : (legacyPhase env m a0).hasAccess = true)
    (_hbound : c.feedId = some m.feedId)
    (hsnap : ∀ t, env.snapshot ≠ .fetchThrew t) :
    (handleUnsubscribe (handleUnsubscribe c).1).1 = (handleUnsubscribe c).1 ∧
    (handleUnsubscribe (handleUnsubscribe c).1).2 = [WsMsg.unsubscribed] ∧
    (handleSubscribe env store c m).1.feedId = some m.feedId ∧
    (∀ t, WsMsg.errorMsg t ∉ (handleSubscribe env store c m).2.2) := by
  refine ⟨rfl, rfl, ?_, ?_⟩
  · simp only [handleSubscribe, hA]
    rw [if_neg (by simp [ha])]
    split
    · split
      · split
        · rfl
        · rfl
      · rfl
    · rfl
  · intro t
    have hmsgs : (handleSubscribe env store c m).2.2 =
        [WsMsg.subscribed m.feedId] ++ snapshotMsgs env.snapshot := by
      simp only [handleSubscribe, hA]
      rw [if_neg (by simp [ha])]
    rw [hmsgs]
    cases hs : env.snapshot with
    | noFeed => simp [snapshotMsgs]
    | premiumBytes ct => simp [snapshotMsgs]
    | premiumNonBytes d => simp [snapshotMsgs]
    | plainData d => simp [snapshotMsgs]
    | fetchThrew s => exact absurd hs (hsnap s)

/-- C9 witness: double unbind of the keyed client is stable, and an
authorized rebind to its already-bound feed keeps the single binding with no
error message. -/
theorem unbind_idempotent_rebind_stable_witness :
    (handleUnsubscribe (handleUnsubscribe keyedClient).1).1
      = (handleUnsubscribe keyedClient).1 ∧
    (handleUnsubscribe (handleUnsubscribe keyedClient).1).2 = [WsMsg.unsubscribed] ∧
    (handleSubscribe grantedEnv [] keyedClient keyedMsg).1.feedId = some "feed-1" ∧
    WsMsg.errorMsg "x" ∉ (handleSubscribe grantedEnv [] keyedClient keyedMsg).2.2 := by
  have h := unbind_idempotent_rebind_stable keyedClient grantedEnv [] keyedMsg
    ⟨true, some "key-1", some "addr-1", some "sub-1"⟩ rfl rfl rfl
    (fun t ht => SnapshotResult.noConfusion ht)
  exact ⟨h.1, h.2.1, h.2.2.1, h.2.2.2 "x"⟩

end IoTrade
